import Mathlib

/-!
Verification development for the atv-bot planning/session core.

The TypeScript sources embedded here:
  - src/sessions.ts        (Session, getSession, upsertSession, clearSession, makeSessionKey)
  - src/planner.ts         (planNext response decoding, normalizeSessionPatch, PlannerResult)
  - src/discord-events.ts  (EventDraft, listSchedulableChannels, validateDraft,
                            applyDefaultEndTimeIfMissing)

Modelling conventions:
  - The in-memory Map of sessions becomes an association list threaded explicitly;
    Date.now() becomes an explicit integer parameter `now` (milliseconds).
  - CONFIG values (sessionTtlMinutes, defaultDurationMinutes, timezone) are
    environment-derived, so they are passed as parameters.
  - External library calls are modelled as function parameters:
    JSON.parse (a JS builtin) as `parseJson : String -> Option JVal` (none = throw),
    luxon's DateTime.fromISO(_, zone).toMillis() as `parseISO : String -> Option Int`
    (none = invalid DateTime), and luxon's DateTime.toISO() on a millisecond
    instant as `toIso : Int -> Option String` (none = no ISO rendering, which
    luxon produces for instants outside its representable range).
  - Loosely typed JavaScript values flowing out of JSON.parse are modelled by the
    inductive `JVal` (numbers restricted to integers; the claims never depend on
    float formatting).  JS string coercion and truthiness are modelled by
    `jsToString` and `jsTruthy`.
  - Patch objects (TypeScript `Partial` types) are modelled with one `Option`
    layer per field meaning key-present / key-absent.
-/

/-- Session mode from src/sessions.ts: the union type "chat" | "event". -/
inductive SessionMode
  | chat
  | event
  deriving DecidableEq

/-- Awaiting slot names from src/sessions.ts: "name" | "where" | "duration" |
"description" | "confirm".  The slot "where" is written where' because `where`
is a Lean keyword. -/
inductive Awaiting
  | name
  | where'
  | duration
  | description
  | confirm
  deriving DecidableEq

/-- String spelled by each awaiting slot name in the TypeScript union. -/
def awaitingName : Awaiting → String
  | Awaiting.name => "name"
  | Awaiting.where' => "where"
  | Awaiting.duration => "duration"
  | Awaiting.description => "description"
  | Awaiting.confirm => "confirm"

/-- JSON values as returned by JSON.parse.  Objects have unique keys (JS object
semantics), numbers are restricted to integers. -/
inductive JVal
  | null
  | bool (b : Bool)
  | num (n : Int)
  | str (s : String)
  | arr (elems : List JVal)
  | obj (fields : List (String × JVal))

/-- Property lookup in a parsed JSON object; none models JS undefined. -/
def lookupField : List (String × JVal) → String → Option JVal
  | [], _ => none
  | (k', v) :: rest, k => if k' = k then some v else lookupField rest k

/-- JS property access x.k on an arbitrary value: undefined (none) unless x is an
object with the key.  (Property access on primitives yields undefined; on
null/undefined it is always guarded by ?. in the embedded code.) -/
def jGet : JVal → String → Option JVal
  | JVal.obj fs, k => lookupField fs k
  | _, _ => none

/-- JS nullish coalescing x ?? d for a possibly-undefined value. -/
def jvOr (v : Option JVal) (d : JVal) : JVal :=
  match v with
  | none => d
  | some JVal.null => d
  | some x => x

/-- JS truthiness of a (defined) value. -/
def jsTruthy : JVal → Bool
  | JVal.null => false
  | JVal.bool b => b
  | JVal.num n => decide (n ≠ 0)
  | JVal.str s => decide (s ≠ "")
  | JVal.arr _ => true
  | JVal.obj _ => true

mutual

/-- JS String(x) coercion of a (defined) value. -/
def jsToString : JVal → String
  | JVal.null => "null"
  | JVal.bool b => if b then "true" else "false"
  | JVal.num n => toString n
  | JVal.str s => s
  | JVal.arr es => jsArrJoin es
  | JVal.obj _ => "[object Object]"

/-- Array.prototype.toString: elements joined with commas, null elements
rendered as the empty string. -/
def jsArrJoin : List JVal → String
  | [] => ""
  | v :: rest =>
    (match v with
      | JVal.null => ""
      | w => jsToString w) ++
    (match rest with
      | [] => ""
      | _ => ",") ++
    jsArrJoin rest

end

/-- Helper of jsTrim: drop leading whitespace characters. -/
def trimLeftChars : List Char → List Char
  | [] => []
  | c :: cs => if c.isWhitespace then trimLeftChars cs else c :: cs

/-- JS String.prototype.trim.  Implemented by structural recursion over the
character list (the library's String.trim is defined by well-founded recursion
on byte positions, which the kernel cannot evaluate); leading whitespace is
dropped, then trailing whitespace by reversal. -/
def jsTrim (s : String) : String :=
  String.mk ((trimLeftChars (trimLeftChars s.data).reverse).reverse)

/-- JS strict equality test x === "s" for a possibly-undefined x against a string
literal. -/
def isStr (v : Option JVal) (s : String) : Bool :=
  match v with
  | some (JVal.str t) => decide (t = s)
  | _ => false

/-- JS strict equality test x === null for a possibly-undefined x. -/
def isNull : Option JVal → Bool
  | some JVal.null => true
  | _ => false

/-- EventDraft from src/discord-events.ts.  Optional string fields are
key-present / key-absent.  entityType is kept as the raw decoded JSON value
(`Option JVal`) because planNext passes `d.entityType` through unchecked and
validateDraft only inspects it by truthiness and by strict comparison with
"EXTERNAL". -/
structure EventDraft where
  name : String
  description : Option String
  scheduledStartTime : String
  scheduledEndTime : Option String
  entityType : Option JVal
  location : Option String
  channelId : Option String

/-- Partial event draft accumulated in a session (TypeScript
Partial of EventDraft); every field optional. -/
structure DraftFields where
  name : Option String := none
  description : Option String := none
  scheduledStartTime : Option String := none
  scheduledEndTime : Option String := none
  entityType : Option JVal := none
  location : Option String := none
  channelId : Option String := none

/-- Session record from src/sessions.ts.  awaiting = none models null (sessions
are only ever written by upsertSession, which always materialises the field). -/
structure Session where
  key : String
  mode : SessionMode
  eventDraft : Option DraftFields
  awaiting : Option Awaiting
  expiresAtMs : Int

/-- Partial of Session: the patch type taken by upsertSession and produced by
normalizeSessionPatch.  One Option layer per field means key-present /
key-absent; for awaiting the inner Option Option distinguishes an explicit null
(some none) from a slot value (some (some a)). -/
structure SessionPatch where
  key : Option String := none
  mode : Option SessionMode := none
  eventDraft : Option (Option DraftFields) := none
  awaiting : Option (Option Awaiting) := none
  expiresAtMs : Option Int := none

/-- The in-memory session Map, as an association list. -/
abbrev SessionStore := List (String × Session)

/-- Map lookup (sessions.get). -/
def storeGet : SessionStore → String → Option Session
  | [], _ => none
  | (k', v) :: rest, k => if k' = k then some v else storeGet rest k

/-- Map removal (sessions.delete). -/
def storeDelete : SessionStore → String → SessionStore
  | [], _ => []
  | (k', v) :: rest, k =>
    if k' = k then storeDelete rest k else (k', v) :: storeDelete rest k

/-- Map insertion/replacement (sessions.set). -/
def storeSet : SessionStore → String → Session → SessionStore
  | [], k, v => [(k, v)]
  | (k', v') :: rest, k, v =>
    if k' = k then (k, v) :: rest else (k', v') :: storeSet rest k v

/-- makeSessionKey from src/sessions.ts. -/
def makeSessionKey (guildId channelId userId : String) : String :=
  guildId ++ ":" ++ channelId ++ ":" ++ userId

/-- getSession from src/sessions.ts: absent keys and entries whose expiresAtMs
lies strictly in the past read as undefined; an expired entry is deleted as a
side effect of the read.  Date.now() is the parameter now. -/
def getSession (now : Int) (store : SessionStore) (key : String) :
    Option Session × SessionStore :=
  match storeGet store key with
  | none => (none, store)
  | some s =>
    if now > s.expiresAtMs then (none, storeDelete store key) else (some s, store)

/-- upsertSession from src/sessions.ts.  The object literal merges defaults,
the current session and the patch in that order, then unconditionally writes
expiresAtMs := now + ttlMinutes * 60000 last, so the patch can never override
the refreshed expiry.  (The source calls Date.now() twice in the same
synchronous body; both occurrences are modelled by the single parameter now.) -/
def upsertSession (now ttlMinutes : Int) (store : SessionStore) (key : String)
    (patch : SessionPatch) : Session × SessionStore :=
  let g := getSession now store key
  let current := g.1
  let ttlMs := ttlMinutes * 60000
  let next : Session :=
    { key := patch.key.getD (match current with
        | some c => c.key
        | none => key),
      mode := patch.mode.getD (match current with
        | some c => c.mode
        | none => SessionMode.chat),
      awaiting := match patch.awaiting with
        | some a => a
        | none => match current with
          | some c => c.awaiting
          | none => none,
      eventDraft := match patch.eventDraft with
        | some d => d
        | none => match current with
          | some c => c.eventDraft
          | none => none,
      expiresAtMs := now + ttlMs }
  (next, storeSet g.2 key next)

/-- clearSession from src/sessions.ts. -/
def clearSession (store : SessionStore) (key : String) : SessionStore :=
  storeDelete store key

/-- PlannerResult from src/planner.ts: the three-variant tagged union.  For the
chat variant the session patch is optional (attached only when non-empty). -/
inductive PlannerResult
  | chat (reply : String) (sessionPatch : Option SessionPatch)
  | ask (question : String) (sessionPatch : SessionPatch)
  | propose_event (draft : EventDraft) (sessionPatch : SessionPatch)

/-- Branch of normalizeSessionPatch for mode: rawMode === "event" yields event,
rawMode === "chat" yields chat, anything else is no instruction. -/
def normMode (raw : Option JVal) : Option SessionMode :=
  if isStr raw "event" then some SessionMode.event
  else if isStr raw "chat" then some SessionMode.chat
  else none

/-- Branch of normalizeSessionPatch for awaiting: the literal null or the string
"null" clear explicitly (some none); one of the five slot names passes through;
anything else is no instruction. -/
def normAwaiting (raw : Option JVal) : Option (Option Awaiting) :=
  if isNull raw || isStr raw "null" then some none
  else if isStr raw "name" then some (some Awaiting.name)
  else if isStr raw "where" then some (some Awaiting.where')
  else if isStr raw "duration" then some (some Awaiting.duration)
  else if isStr raw "description" then some (some Awaiting.description)
  else if isStr raw "confirm" then some (some Awaiting.confirm)
  else none

/-- normalizeSessionPatch from src/planner.ts.  The argument is
parsed.sessionPatch, a possibly-undefined loosely typed value; patch?.mode and
patch?.awaiting become binds through jGet.  Only mode and awaiting keys are ever
emitted. -/
def normalizeSessionPatch (patch : Option JVal) : SessionPatch :=
  { mode := normMode (patch.bind fun v => jGet v "mode"),
    awaiting := normAwaiting (patch.bind fun v => jGet v "awaiting") }

/-- Object.keys(patch).length === 0 for a SessionPatch. -/
def patchIsEmpty (p : SessionPatch) : Bool :=
  p.key.isNone && p.mode.isNone && p.eventDraft.isNone &&
    p.awaiting.isNone && p.expiresAtMs.isNone

/-- Spread helper of planNext's propose_event branch: a field is included only
when the decoded value is truthy, and is then String()-coerced. -/
def truthyField (d : JVal) (k : String) : Option String :=
  match jGet d k with
  | some v => if jsTruthy v then some (jsToString v) else none
  | none => none

/-- Draft construction of planNext's propose_event branch: name and
scheduledStartTime coerced to trimmed strings, entityType passed through as-is,
the four optional fields included only when truthy. -/
def buildDraft (d : JVal) : EventDraft :=
  { name := jsTrim (jsToString (jvOr (jGet d "name") (JVal.str ""))),
    description := truthyField d "description",
    scheduledStartTime := jsTrim (jsToString (jvOr (jGet d "scheduledStartTime") (JVal.str ""))),
    scheduledEndTime := truthyField d "scheduledEndTime",
    entityType := jGet d "entityType",
    location := truthyField d "location",
    channelId := truthyField d "channelId" }

/-- Body of planNext after JSON.parse succeeded: normalize the session patch and
branch on parsed.action, falling back to a generic chat reply for an
unrecognized action. -/
def handleParsed (parsed : JVal) : PlannerResult :=
  let patch := normalizeSessionPatch (jGet parsed "sessionPatch")
  if isStr (jGet parsed "action") "chat" then
    let reply := jsTrim (jsToString (jvOr (jGet parsed "reply") (JVal.str "")))
    PlannerResult.chat (if reply = "" then "OK." else reply)
      (if patchIsEmpty patch then none else some patch)
  else if isStr (jGet parsed "action") "ask" then
    let question := jsTrim (jsToString (jvOr (jGet parsed "question") (JVal.str "")))
    if question = "" then
      PlannerResult.chat "I need one detail to proceed—what should I clarify?" none
    else PlannerResult.ask question patch
  else if isStr (jGet parsed "action") "propose_event" then
    PlannerResult.propose_event (buildDraft (jvOr (jGet parsed "draft") (JVal.obj [])))
      (normalizeSessionPatch (jGet parsed "sessionPatch"))
  else PlannerResult.chat "I’m not sure what you want. Can you rephrase?" none

/-- planNext from src/planner.ts, response-decoding part.  Prompt construction
and the completion call are I/O; the decoded behaviour is a pure function of the
model response text (output_text, none = absent) and of JSON.parse, modelled as
the parameter parseJson (none = exception).  No text or blank text yields the
generic chat reply; unparseable text is echoed back as chat. -/
def planNext (output_text : Option String) (parseJson : String → Option JVal) :
    PlannerResult :=
  match output_text with
  | none => PlannerResult.chat "I didn’t get a usable response. Try again." none
  | some t =>
    let raw := jsTrim t
    if raw = "" then PlannerResult.chat "I didn’t get a usable response. Try again." none
    else
      match parseJson raw with
      | none => PlannerResult.chat raw none
      | some parsed => handleParsed parsed

/-- Channel types relevant to listSchedulableChannels (discord.js ChannelType);
other covers every other channel type in the guild cache. -/
inductive ChannelType
  | GuildVoice
  | GuildStageVoice
  | other
  deriving DecidableEq

/-- Kind tag of a schedulable channel. -/
inductive ChannelKind
  | VOICE
  | STAGE
  deriving DecidableEq

/-- Channel of a guild's channel cache. -/
structure GuildChannel where
  id : String
  name : String
  type : ChannelType

/-- Entry of the schedulable-channel list. -/
structure VoiceChannelInfo where
  id : String
  name : String
  kind : ChannelKind

/-- listSchedulableChannels from src/discord-events.ts: voice channels are
collected as VOICE and stage channels as STAGE, in cache order. -/
def listSchedulableChannels : List GuildChannel → List VoiceChannelInfo
  | [] => []
  | ch :: rest =>
    (if ch.type = ChannelType.GuildVoice
      then [{ id := ch.id, name := ch.name, kind := ChannelKind.VOICE }] else []) ++
    (if ch.type = ChannelType.GuildStageVoice
      then [{ id := ch.id, name := ch.name, kind := ChannelKind.STAGE }] else []) ++
    listSchedulableChannels rest

/-- JS truthiness of a possibly-undefined value. -/
def entityPresent : Option JVal → Bool
  | none => false
  | some v => jsTruthy v

/-- Truthiness of an optional string field (present and non-empty). -/
def strTruthy : Option String → Bool
  | none => false
  | some s => decide (s ≠ "")

/-- Falsiness of x?.trim() for an optional string field: absent, or blank after
trimming. -/
def optBlank : Option String → Bool
  | none => true
  | some s => decide (jsTrim s = "")

/-- End-time block of validateDraft: the `if (draft.scheduledEndTime)` body —
a truthy end time must parse and lie strictly after the start. -/
def endTimeErr (parseISO : String → Option Int) (startMs : Int) :
    Option String → Option String
  | some e =>
    if e = "" then none
    else
      match parseISO e with
      | none => some "End time is not a valid ISO timestamp."
      | some endMs =>
        if endMs ≤ startMs then some "End time must be after start time." else none
  | none => none

/-- Location/channel block of validateDraft: EXTERNAL events need a non-blank
location, all other entity types a non-blank channelId. -/
def whereErr (draft : EventDraft) : Option String :=
  if isStr draft.entityType "EXTERNAL" then
    if optBlank draft.location then some "External events require a location." else none
  else
    if optBlank draft.channelId then some "Voice/Stage events require a channelId." else none

/-- validateDraft from src/discord-events.ts.  DateTime.fromISO in the
configured zone is the parameter parseISO (none = invalid, some = toMillis());
Date.now() is the parameter now.  Checks run in source order and the first
failing check's message is returned. -/
def validateDraft (parseISO : String → Option Int) (now : Int)
    (draft : EventDraft) : Option String :=
  if jsTrim draft.name = "" then some "Missing event name."
  else if draft.scheduledStartTime = "" then some "Missing start time."
  else if entityPresent draft.entityType = false then some "Missing entity type."
  else
    match parseISO draft.scheduledStartTime with
    | none => some "Start time is not a valid ISO timestamp."
    | some startMs =>
      if startMs < now + 60000 then some "Start time must be in the future."
      else
        match endTimeErr parseISO startMs draft.scheduledEndTime with
        | some msg => some msg
        | none => whereErr draft

/-- applyDefaultEndTimeIfMissing from src/discord-events.ts.  When the draft has
no truthy end time, the default end is start plus defaultDurationMinutes,
rendered by luxon's toISO (the parameter toIso); when that rendering yields no
string (or an empty one, both falsy in the source's !endIso guard), the draft is
returned unchanged rather than being given a bad value. -/
def applyDefaultEndTimeIfMissing (parseISO : String → Option Int)
    (toIso : Int → Option String) (defaultDurationMinutes : Int)
    (draft : EventDraft) : EventDraft :=
  if strTruthy draft.scheduledEndTime then draft
  else
    match parseISO draft.scheduledStartTime with
    | none => draft
    | some startMs =>
      match toIso (startMs + defaultDurationMinutes * 60000) with
      | none => draft
      | some endIso =>
        if endIso = "" then draft
        else { draft with scheduledEndTime := some endIso }

theorem storeGet_storeDelete (st : SessionStore) (k : String) :
    storeGet (storeDelete st k) k = none := by
  induction st with
  | nil => rfl
  | cons hd tl ih =>
    obtain ⟨k', v⟩ := hd
    by_cases h : k' = k <;> simp [storeDelete, storeGet, h, ih]

theorem storeGet_storeSet (st : SessionStore) (k : String) (v : Session) :
    storeGet (storeSet st k v) k = some v := by
  induction st with
  | nil => simp [storeSet, storeGet]
  | cons hd tl ih =>
    obtain ⟨k', v'⟩ := hd
    by_cases h : k' = k <;> simp [storeSet, storeGet, h, ih]

/-- C1: for every session stored under a key, a getSession read at any instant
strictly after the session's expiresAtMs returns absent and deletes the
entry, a repeated read still returns absent, and getSession never returns a
session whose expiresAtMs lies strictly in the past. -/
theorem getSession_expiry (now : Int) (st : SessionStore) (key : String) :
    (∀ s, storeGet st key = some s → now > s.expiresAtMs →
      (getSession now st key).1 = none ∧
      storeGet (getSession now st key).2 key = none ∧
      (getSession now (getSession now st key).2 key).1 = none) ∧
    (∀ s, (getSession now st key).1 = some s → ¬ now > s.expiresAtMs) := by
  constructor
  · intro s hs hexp
    have hg : getSession now st key = (none, storeDelete st key) := by
      simp [getSession, hs, hexp]
    rw [hg]
    refine ⟨rfl, storeGet_storeDelete st key, ?_⟩
    simp [getSession, storeGet_storeDelete st key]
  · intro s hs
    unfold getSession at hs
    cases hg : storeGet st key with
    | none => rw [hg] at hs; simp at hs
    | some s' =>
      rw [hg] at hs
      by_cases hexp : now > s'.expiresAtMs
      · simp [hexp] at hs
      · simp [hexp] at hs
        rw [← hs]
        exact hexp

/-- Concrete session used by the session-store witnesses. -/
def sessA : Session :=
  { key := "g:c:u", mode := SessionMode.chat, eventDraft := none,
    awaiting := none, expiresAtMs := 1000 }

/-- Witness for C1: at instant 2000 a session that expired at 1000 reads as
absent, the entry is gone, and a repeated read is still absent. -/
theorem getSession_expiry_witness :
    (getSession 2000 [("g:c:u", sessA)] "g:c:u").1 = none ∧
    storeGet (getSession 2000 [("g:c:u", sessA)] "g:c:u").2 "g:c:u" = none ∧
    (getSession 2000 (getSession 2000 [("g:c:u", sessA)] "g:c:u").2 "g:c:u").1 = none :=
  (getSession_expiry 2000 [("g:c:u", sessA)] "g:c:u").1 sessA (by rfl) (by decide)

/-- Concrete session whose expiry equals now + TTL for the C2 counterexample. -/
def sessB : Session :=
  { key := "k", mode := SessionMode.chat, eventDraft := none,
    awaiting := none, expiresAtMs := 600000 }

/-- C2 counterexample: with a 10 minute TTL, a session written at instant 0
carries expiresAtMs = 600000; a second upsertSession in the same millisecond
rewrites expiresAtMs to 0 + 600000 = 600000, which is not a strict increase
over the pre-call value even though the session already existed. -/
theorem upsertSession_ttl_counterexample :
    storeGet [("k", sessB)] "k" = some sessB ∧
    (getSession 0 [("k", sessB)] "k").1 = some sessB ∧
    ¬ sessB.expiresAtMs <
        (upsertSession 0 10 [("k", sessB)] "k" {}).1.expiresAtMs := by
  refine ⟨rfl, by rfl, by decide⟩

/-- C2 amended: upsertSession always rewrites the stored session's expiresAtMs
to now + ttlMinutes * 60000 regardless of the patch's contents (a patch-supplied
expiresAtMs is overridden), and the result is a strict increase over the
pre-call value exactly when the pre-existing entry's expiry was below
now + TTL — which holds whenever the entry was written at a strictly earlier
instant with the same TTL, but not when it was written in the same
millisecond. -/
theorem upsertSession_refreshes_ttl (now ttlMinutes : Int) (st : SessionStore)
    (key : String) (patch : SessionPatch) :
    (upsertSession now ttlMinutes st key patch).1.expiresAtMs
      = now + ttlMinutes * 60000 ∧
    storeGet (upsertSession now ttlMinutes st key patch).2 key
      = some (upsertSession now ttlMinutes st key patch).1 ∧
    (∀ c, storeGet st key = some c → c.expiresAtMs < now + ttlMinutes * 60000 →
      c.expiresAtMs < (upsertSession now ttlMinutes st key patch).1.expiresAtMs) := by
  refine ⟨rfl, ?_, ?_⟩
  · exact storeGet_storeSet _ key _
  · intro c _ hlt
    calc c.expiresAtMs < now + ttlMinutes * 60000 := hlt
    _ = (upsertSession now ttlMinutes st key patch).1.expiresAtMs := rfl

/-- Witness for C2 (amended): a later upsert strictly increases the expiry of a
previously written entry, and a patch-supplied expiresAtMs of 42 is ignored. -/
theorem upsertSession_refreshes_ttl_witness :
    (upsertSession 2000 10 [("g:c:u", sessA)] "g:c:u"
        { expiresAtMs := some 42 }).1.expiresAtMs = 2000 + 10 * 60000 ∧
    sessA.expiresAtMs <
      (upsertSession 2000 10 [("g:c:u", sessA)] "g:c:u"
        { expiresAtMs := some 42 }).1.expiresAtMs :=
  ⟨(upsertSession_refreshes_ttl 2000 10 [("g:c:u", sessA)] "g:c:u"
      { expiresAtMs := some 42 }).1,
   (upsertSession_refreshes_ttl 2000 10 [("g:c:u", sessA)] "g:c:u"
      { expiresAtMs := some 42 }).2.2 sessA (by rfl) (by decide)⟩

/-- C10: normalizeSessionPatch emits at most the mode and awaiting keys — never
eventDraft, key or expiresAtMs — so applying any planner-produced patch through
upsertSession leaves the session's accumulated eventDraft unchanged (and still
absent when no live session existed). -/
theorem plannerPatch_preserves_eventDraft (p : Option JVal) (now ttlMinutes : Int)
    (st : SessionStore) (key : String) :
    (normalizeSessionPatch p).key = none ∧
    (normalizeSessionPatch p).eventDraft = none ∧
    (normalizeSessionPatch p).expiresAtMs = none ∧
    (∀ c, (getSession now st key).1 = some c →
      (upsertSession now ttlMinutes st key (normalizeSessionPatch p)).1.eventDraft
        = c.eventDraft) ∧
    ((getSession now st key).1 = none →
      (upsertSession now ttlMinutes st key (normalizeSessionPatch p)).1.eventDraft
        = none) := by
  refine ⟨rfl, rfl, rfl, ?_, ?_⟩
  · intro c hc
    simp [upsertSession, normalizeSessionPatch, hc]
  · intro hc
    simp [upsertSession, normalizeSessionPatch, hc]

/-- Session holding an accumulated draft, for the C10 witness. -/
def sessDraft : Session :=
  { key := "k", mode := SessionMode.event,
    eventDraft := some { name := some "Party" },
    awaiting := some Awaiting.duration, expiresAtMs := 10000 }

/-- Parsed sessionPatch object used by the C3 and C10 witnesses: mode "event",
awaiting explicitly cleared. -/
def vPatch : JVal :=
  JVal.obj [("mode", JVal.str "event"), ("awaiting", JVal.null)]

/-- Witness for C10: upserting a planner patch that sets mode and clears
awaiting leaves the accumulated draft of a live session untouched. -/
theorem plannerPatch_preserves_eventDraft_witness :
    (upsertSession 500 10 [("k", sessDraft)] "k"
        (normalizeSessionPatch (some vPatch))).1.eventDraft
      = some { name := some "Party" } :=
  (plannerPatch_preserves_eventDraft (some vPatch) 500 10 [("k", sessDraft)]
    "k").2.2.2.1 sessDraft (by rfl)

theorem isStr_true_iff (v : Option JVal) (s : String) :
    isStr v s = true ↔ v = some (JVal.str s) := by
  cases v with
  | none => simp [isStr]
  | some w => cases w <;> simp [isStr]

theorem isNull_true_iff (v : Option JVal) :
    isNull v = true ↔ v = some JVal.null := by
  cases v with
  | none => simp [isNull]
  | some w => cases w <;> simp [isNull]

theorem normMode_event_iff (raw : Option JVal) :
    normMode raw = some SessionMode.event ↔ raw = some (JVal.str "event") := by
  rw [← isStr_true_iff]
  by_cases h1 : isStr raw "event" = true
  · simp [normMode, h1]
  · by_cases h2 : isStr raw "chat" = true <;> simp [normMode, h1, h2]

theorem normMode_chat_iff (raw : Option JVal) :
    normMode raw = some SessionMode.chat ↔ raw = some (JVal.str "chat") := by
  by_cases h1 : isStr raw "event" = true
  · rw [isStr_true_iff] at h1
    subst h1
    simp [normMode, isStr]
  · by_cases h2 : isStr raw "chat" = true
    · rw [isStr_true_iff] at h2
      subst h2
      simp [normMode, isStr]
    · rw [← isStr_true_iff]
      simp [normMode, h1, h2]

theorem normMode_none_iff (raw : Option JVal) :
    normMode raw = none ↔
      (raw ≠ some (JVal.str "event") ∧ raw ≠ some (JVal.str "chat")) := by
  by_cases h1 : isStr raw "event" = true <;>
    by_cases h2 : isStr raw "chat" = true <;>
      simp [normMode, h1, h2, ← isStr_true_iff]

theorem normAwaiting_clear_iff (raw : Option JVal) :
    normAwaiting raw = some none ↔
      raw = some JVal.null ∨ raw = some (JVal.str "null") := by
  have hR : (raw = some JVal.null ∨ raw = some (JVal.str "null")) ↔
      (isNull raw || isStr raw "null") = true := by
    rw [Bool.or_eq_true, isNull_true_iff, isStr_true_iff]
  rw [hR]
  by_cases h0 : (isNull raw || isStr raw "null") = true
  · simp [normAwaiting, h0]
  · simp only [normAwaiting, h0, if_false, Bool.false_eq_true]
    split_ifs <;> simp [h0]

theorem normAwaiting_set_iff (raw : Option JVal) (a : Awaiting) :
    normAwaiting raw = some (some a) ↔
      raw = some (JVal.str (awaitingName a)) := by
  cases raw with
  | none => cases a <;> simp [normAwaiting, isNull, isStr, awaitingName]
  | some v =>
    cases v with
    | null => cases a <;> simp [normAwaiting, isNull, isStr, awaitingName]
    | bool b => cases a <;> simp [normAwaiting, isNull, isStr, awaitingName]
    | num n => cases a <;> simp [normAwaiting, isNull, isStr, awaitingName]
    | arr es => cases a <;> simp [normAwaiting, isNull, isStr, awaitingName]
    | obj fs => cases a <;> simp [normAwaiting, isNull, isStr, awaitingName]
    | str s =>
      cases a <;>
        by_cases h1 : s = "null" <;>
          by_cases h2 : s = "name" <;>
            by_cases h3 : s = "where" <;>
              by_cases h4 : s = "duration" <;>
                by_cases h5 : s = "description" <;>
                  by_cases h6 : s = "confirm" <;>
                    simp_all [normAwaiting, isNull, isStr, awaitingName]

theorem normAwaiting_none_iff (raw : Option JVal) :
    normAwaiting raw = none ↔
      ¬(raw = some JVal.null ∨ raw = some (JVal.str "null") ∨
        raw = some (JVal.str "name") ∨ raw = some (JVal.str "where") ∨
        raw = some (JVal.str "duration") ∨ raw = some (JVal.str "description") ∨
        raw = some (JVal.str "confirm")) := by
  cases raw with
  | none => simp [normAwaiting, isNull, isStr]
  | some v =>
    cases v with
    | null => simp [normAwaiting, isNull, isStr]
    | bool b => simp [normAwaiting, isNull, isStr]
    | num n => simp [normAwaiting, isNull, isStr]
    | arr es => simp [normAwaiting, isNull, isStr]
    | obj fs => simp [normAwaiting, isNull, isStr]
    | str s =>
      by_cases h1 : s = "null" <;>
        by_cases h2 : s = "name" <;>
          by_cases h3 : s = "where" <;>
            by_cases h4 : s = "duration" <;>
              by_cases h5 : s = "description" <;>
                by_cases h6 : s = "confirm" <;>
                  simp_all [normAwaiting, isNull, isStr]

/-- C3: session-patch normalization is three-valued on awaiting — the literal
null or the string "null" produce an explicit clear (some none), one of the
five slot names passes through, anything else (including an absent key) is
omitted; mode becomes event only for exactly "event" and chat only for exactly
"chat", omitted otherwise; and the output patch carries no keys besides mode
and awaiting. -/
theorem normalizeSessionPatch_three_valued (p : Option JVal) :
    ((normalizeSessionPatch p).awaiting = some none ↔
      p.bind (fun v => jGet v "awaiting") = some JVal.null ∨
      p.bind (fun v => jGet v "awaiting") = some (JVal.str "null")) ∧
    (∀ a : Awaiting, (normalizeSessionPatch p).awaiting = some (some a) ↔
      p.bind (fun v => jGet v "awaiting") = some (JVal.str (awaitingName a))) ∧
    ((normalizeSessionPatch p).awaiting = none ↔
      ¬(p.bind (fun v => jGet v "awaiting") = some JVal.null ∨
        p.bind (fun v => jGet v "awaiting") = some (JVal.str "null") ∨
        p.bind (fun v => jGet v "awaiting") = some (JVal.str "name") ∨
        p.bind (fun v => jGet v "awaiting") = some (JVal.str "where") ∨
        p.bind (fun v => jGet v "awaiting") = some (JVal.str "duration") ∨
        p.bind (fun v => jGet v "awaiting") = some (JVal.str "description") ∨
        p.bind (fun v => jGet v "awaiting") = some (JVal.str "confirm"))) ∧
    ((normalizeSessionPatch p).mode = some SessionMode.event ↔
      p.bind (fun v => jGet v "mode") = some (JVal.str "event")) ∧
    ((normalizeSessionPatch p).mode = some SessionMode.chat ↔
      p.bind (fun v => jGet v "mode") = some (JVal.str "chat")) ∧
    ((normalizeSessionPatch p).mode = none ↔
      (p.bind (fun v => jGet v "mode") ≠ some (JVal.str "event") ∧
       p.bind (fun v => jGet v "mode") ≠ some (JVal.str "chat"))) ∧
    (normalizeSessionPatch p).key = none ∧
    (normalizeSessionPatch p).eventDraft = none ∧
    (normalizeSessionPatch p).expiresAtMs = none := by
  refine ⟨?_, ?_, ?_, ?_, ?_, ?_, rfl, rfl, rfl⟩
  · exact normAwaiting_clear_iff _
  · intro a
    exact normAwaiting_set_iff _ a
  · exact normAwaiting_none_iff _
  · exact normMode_event_iff _
  · exact normMode_chat_iff _
  · exact normMode_none_iff _

/-- Witness for C3 at the concrete patch object with mode "event" and awaiting
null, plus a pass-through and an omission at further concrete objects. -/
theorem normalizeSessionPatch_three_valued_witness :
    (normalizeSessionPatch (some vPatch)).awaiting = some none ∧
    (normalizeSessionPatch (some vPatch)).mode = some SessionMode.event ∧
    (normalizeSessionPatch
        (some (JVal.obj [("awaiting", JVal.str "where")]))).awaiting
      = some (some Awaiting.where') ∧
    (normalizeSessionPatch
        (some (JVal.obj [("awaiting", JVal.str "bogus")]))).awaiting = none :=
  ⟨(normalizeSessionPatch_three_valued (some vPatch)).1.mpr (by
      left
      rfl),
   (normalizeSessionPatch_three_valued (some vPatch)).2.2.2.1.mpr (by rfl),
   ((normalizeSessionPatch_three_valued
      (some (JVal.obj [("awaiting", JVal.str "where")]))).2.1 Awaiting.where').mpr
      (by rfl),
   (normalizeSessionPatch_three_valued
      (some (JVal.obj [("awaiting", JVal.str "bogus")]))).2.2.1.mpr (by
      intro h
      rcases h with h | h | h | h | h | h | h <;> simp [jGet, lookupField] at h)⟩

theorem planNext_parse_some (t : String) (parseJson : String → Option JVal)
    (j : JVal) (h1 : ¬ jsTrim t = "") (h2 : parseJson (jsTrim t) = some j) :
    planNext (some t) parseJson = handleParsed j := by
  simp [planNext, h1, h2]

theorem handleParsed_ask_nonempty (parsed : JVal) (q : String) (sp : SessionPatch)
    (h : handleParsed parsed = PlannerResult.ask q sp) : q ≠ "" := by
  simp only [handleParsed] at h
  split_ifs at h with hc ha hq hp
  all_goals simp_all

/-- C4: a decoded ask whose question is blank after trimming is downgraded to a
chat result carrying the fallback clarification-request message, and planNext
never returns an ask with an empty question. -/
theorem planNext_empty_question (ot : Option String)
    (parseJson : String → Option JVal) :
    (∀ q sp, planNext ot parseJson = PlannerResult.ask q sp → q ≠ "") ∧
    (∀ t j, ot = some t → ¬ jsTrim t = "" → parseJson (jsTrim t) = some j →
      jGet j "action" = some (JVal.str "ask") →
      jsTrim (jsToString (jvOr (jGet j "question") (JVal.str ""))) = "" →
      planNext ot parseJson =
        PlannerResult.chat "I need one detail to proceed—what should I clarify?" none) := by
  constructor
  · intro q sp h
    cases ot with
    | none => simp [planNext] at h
    | some t =>
      by_cases ht : jsTrim t = ""
      · simp [planNext, ht] at h
      · cases hp : parseJson (jsTrim t) with
        | none => simp [planNext, ht, hp] at h
        | some j =>
          rw [planNext_parse_some t parseJson j ht hp] at h
          exact handleParsed_ask_nonempty j q sp h
  · intro t j hot ht hp hact hq
    subst hot
    rw [planNext_parse_some t parseJson j ht hp]
    have hc : isStr (jGet j "action") "chat" = false := by rw [hact]; rfl
    have ha : isStr (jGet j "action") "ask" = true := by rw [hact]; rfl
    simp [handleParsed, hc, ha, hq]

/-- C6: decoding failure in planNext degrades to chat and never to a hard
failure — absent or blank response text yields the generic reply, and
non-empty unparseable text is echoed back verbatim (the source echoes the
variable raw, i.e. the trimmed response text). -/
theorem planNext_decode_failure (parseJson : String → Option JVal) :
    (planNext none parseJson =
      PlannerResult.chat "I didn’t get a usable response. Try again." none) ∧
    (∀ t : String, jsTrim t = "" → planNext (some t) parseJson =
      PlannerResult.chat "I didn’t get a usable response. Try again." none) ∧
    (∀ t : String, ¬ jsTrim t = "" → parseJson (jsTrim t) = none →
      planNext (some t) parseJson = PlannerResult.chat (jsTrim t) none) := by
  refine ⟨rfl, ?_, ?_⟩
  · intro t ht
    simp [planNext, ht]
  · intro t ht hp
    simp [planNext, ht, hp]

/-- C5: a decoded propose_event is mapped to a propose_event result whose draft
has name and scheduledStartTime String()-coerced and trimmed, entityType passed
through as-is, and each of description, scheduledEndTime, location, channelId
present exactly when the decoded value is truthy (so null or empty-string
values yield absent fields), carrying the normalized session patch. -/
theorem planNext_propose_event (ot : Option String)
    (parseJson : String → Option JVal) :
    (∀ t j, ot = some t → ¬ jsTrim t = "" → parseJson (jsTrim t) = some j →
      jGet j "action" = some (JVal.str "propose_event") →
      planNext ot parseJson =
        PlannerResult.propose_event
          (buildDraft (jvOr (jGet j "draft") (JVal.obj [])))
          (normalizeSessionPatch (jGet j "sessionPatch"))) ∧
    (∀ d : JVal,
      (buildDraft d).name
        = jsTrim (jsToString (jvOr (jGet d "name") (JVal.str ""))) ∧
      (buildDraft d).scheduledStartTime
        = jsTrim (jsToString (jvOr (jGet d "scheduledStartTime") (JVal.str ""))) ∧
      (buildDraft d).entityType = jGet d "entityType" ∧
      ((buildDraft d).description.isSome ↔
        ∃ v, jGet d "description" = some v ∧ jsTruthy v = true) ∧
      (∀ v, jGet d "description" = some v → jsTruthy v = true →
        (buildDraft d).description = some (jsToString v)) ∧
      ((buildDraft d).scheduledEndTime.isSome ↔
        ∃ v, jGet d "scheduledEndTime" = some v ∧ jsTruthy v = true) ∧
      (∀ v, jGet d "scheduledEndTime" = some v → jsTruthy v = true →
        (buildDraft d).scheduledEndTime = some (jsToString v)) ∧
      ((buildDraft d).location.isSome ↔
        ∃ v, jGet d "location" = some v ∧ jsTruthy v = true) ∧
      (∀ v, jGet d "location" = some v → jsTruthy v = true →
        (buildDraft d).location = some (jsToString v)) ∧
      ((buildDraft d).channelId.isSome ↔
        ∃ v, jGet d "channelId" = some v ∧ jsTruthy v = true) ∧
      (∀ v, jGet d "channelId" = some v → jsTruthy v = true →
        (buildDraft d).channelId = some (jsToString v))) := by
  constructor
  · intro t j hot ht hp hact
    subst hot
    rw [planNext_parse_some t parseJson j ht hp]
    have hc : isStr (jGet j "action") "chat" = false := by rw [hact]; rfl
    have ha : isStr (jGet j "action") "ask" = false := by rw [hact]; rfl
    have he : isStr (jGet j "action") "propose_event" = true := by rw [hact]; rfl
    simp [handleParsed, hc, ha, he]
  · intro d
    refine ⟨rfl, rfl, rfl, ?_, ?_, ?_, ?_, ?_, ?_, ?_, ?_⟩ <;>
      first
        | (cases hv : jGet d "description" with
            | none => simp [buildDraft, truthyField, hv]
            | some v =>
              by_cases htr : jsTruthy v = true <;>
                simp [buildDraft, truthyField, hv, htr])
        | (cases hv : jGet d "scheduledEndTime" with
            | none => simp [buildDraft, truthyField, hv]
            | some v =>
              by_cases htr : jsTruthy v = true <;>
                simp [buildDraft, truthyField, hv, htr])
        | (cases hv : jGet d "location" with
            | none => simp [buildDraft, truthyField, hv]
            | some v =>
              by_cases htr : jsTruthy v = true <;>
                simp [buildDraft, truthyField, hv, htr])
        | (cases hv : jGet d "channelId" with
            | none => simp [buildDraft, truthyField, hv]
            | some v =>
              by_cases htr : jsTruthy v = true <;>
                simp [buildDraft, truthyField, hv, htr])

/-- Model response text for the C4 witness: an ask whose question is blank. -/
def jsonBlankAsk : String :=
  "\x7b\"action\":\"ask\",\"question\":\"  \",\"sessionPatch\":\x7b\"mode\":null,\"awaiting\":null\x7d\x7d"

/-- Parsed form of jsonBlankAsk. -/
def vBlankAsk : JVal :=
  JVal.obj [("action", JVal.str "ask"), ("question", JVal.str "  "),
    ("sessionPatch", JVal.obj [("mode", JVal.null), ("awaiting", JVal.null)])]

/-- Parsed draft of the C5 witness: nullable fields null, name padded. -/
def vDraft : JVal :=
  JVal.obj [("name", JVal.str " Movie Night "), ("description", JVal.null),
    ("scheduledStartTime", JVal.str "1970-01-02T00:00:00.000Z"),
    ("scheduledEndTime", JVal.null), ("entityType", JVal.str "VOICE"),
    ("location", JVal.null), ("channelId", JVal.str "123")]

/-- Model response text for the C5 witness. -/
def jsonProp : String :=
  "\x7b\"action\":\"propose_event\",\"draft\":\x7b\"name\":\" Movie Night \",\"description\":null,\"scheduledStartTime\":\"1970-01-02T00:00:00.000Z\",\"scheduledEndTime\":null,\"entityType\":\"VOICE\",\"location\":null,\"channelId\":\"123\"\x7d,\"sessionPatch\":\x7b\"mode\":\"event\",\"awaiting\":null\x7d\x7d"

/-- Parsed form of jsonProp. -/
def vProp : JVal :=
  JVal.obj [("action", JVal.str "propose_event"), ("draft", vDraft),
    ("sessionPatch", vPatch)]

/-- JSON.parse stub used by the planner witnesses, consistent with real
JSON.parse on the three inputs at which it is evaluated: the two JSON texts
parse to their parsed forms and plain prose throws. -/
def parseStub : String → Option JVal := fun s =>
  if s = jsonBlankAsk then some vBlankAsk
  else if s = jsonProp then some vProp
  else none

/-- Witness for C4: the blank-question ask downgrades to the fallback chat. -/
theorem planNext_empty_question_witness :
    planNext (some jsonBlankAsk) parseStub =
      PlannerResult.chat "I need one detail to proceed—what should I clarify?" none :=
  (planNext_empty_question (some jsonBlankAsk) parseStub).2 jsonBlankAsk vBlankAsk
    rfl (by decide) (by rfl) (by rfl) (by rfl)

set_option maxRecDepth 8192 in
/-- Witness for C5: null description and scheduledEndTime come out as absent
fields, name is trimmed, entityType and channelId pass through. -/
theorem planNext_propose_event_witness :
    planNext (some jsonProp) parseStub =
      PlannerResult.propose_event
        { name := "Movie Night", description := none,
          scheduledStartTime := "1970-01-02T00:00:00.000Z",
          scheduledEndTime := none, entityType := some (JVal.str "VOICE"),
          location := none, channelId := some "123" }
        { mode := some SessionMode.event, awaiting := some none } := by
  have h := (planNext_propose_event (some jsonProp) parseStub).1 jsonProp vProp
    rfl (by decide) (by rfl) (by rfl)
  rw [h]
  rfl

/-- Witness for C6: no text and blank text give the generic reply; prose that
JSON.parse rejects is echoed back. -/
theorem planNext_decode_failure_witness :
    planNext none parseStub =
      PlannerResult.chat "I didn’t get a usable response. Try again." none ∧
    planNext (some "   ") parseStub =
      PlannerResult.chat "I didn’t get a usable response. Try again." none ∧
    planNext (some "hello there") parseStub =
      PlannerResult.chat "hello there" none := by
  refine ⟨(planNext_decode_failure parseStub).1,
    (planNext_decode_failure parseStub).2.1 "   " (by decide), ?_⟩
  have h := (planNext_decode_failure parseStub).2.2 "hello there" (by decide) (by rfl)
  rw [h]
  rfl

theorem endTimeErr_none_iff (p : String → Option Int) (startMs : Int)
    (endT : Option String) :
    endTimeErr p startMs endT = none ↔
      ∀ e, endT = some e → e ≠ "" → ∃ en, p e = some en ∧ startMs < en := by
  cases endT with
  | none => simp [endTimeErr]
  | some e =>
    by_cases he : e = ""
    · simp [endTimeErr, he]
    · cases hp : p e with
      | none => simp [endTimeErr, he, hp]
      | some en =>
        by_cases hle : en ≤ startMs
        · have hne : endTimeErr p startMs (some e)
              = some "End time must be after start time." := by
            simp [endTimeErr, he, hp, hle]
          rw [hne]
          constructor
          · intro h
            simp at h
          · intro h
            exfalso
            rcases h e rfl he with ⟨en', hen', hlt⟩
            rw [hp] at hen'
            cases hen'
            omega
        · simp only [endTimeErr, he, if_false, hp, hle]
          constructor
          · intro _ e' he' hne
            cases he'
            exact ⟨en, hp, by omega⟩
          · intro _
            simp

theorem whereErr_none_iff (d : EventDraft) :
    whereErr d = none ↔
      (isStr d.entityType "EXTERNAL" = true → optBlank d.location = false) ∧
      (isStr d.entityType "EXTERNAL" = false → optBlank d.channelId = false) := by
  by_cases hx : isStr d.entityType "EXTERNAL" = true
  · by_cases hb : optBlank d.location = true <;> simp_all [whereErr]
  · by_cases hb : optBlank d.channelId = true <;> simp_all [whereErr]

theorem validateDraft_none_iff (p : String → Option Int) (now : Int)
    (d : EventDraft) :
    validateDraft p now d = none ↔
      (jsTrim d.name ≠ "" ∧ d.scheduledStartTime ≠ "" ∧
        entityPresent d.entityType = true ∧
        ∃ s, p d.scheduledStartTime = some s ∧ now + 60000 ≤ s ∧
          (∀ e, d.scheduledEndTime = some e → e ≠ "" →
            ∃ en, p e = some en ∧ s < en) ∧
          (isStr d.entityType "EXTERNAL" = true → optBlank d.location = false) ∧
          (isStr d.entityType "EXTERNAL" = false → optBlank d.channelId = false)) := by
  by_cases h1 : jsTrim d.name = ""
  · simp [validateDraft, h1]
  · by_cases h2 : d.scheduledStartTime = ""
    · simp [validateDraft, h1, h2]
    · by_cases h3 : entityPresent d.entityType = true
      · cases hs : p d.scheduledStartTime with
        | none => simp [validateDraft, h1, h2, h3, hs]
        | some s =>
          by_cases h5 : s < now + 60000
          · simp only [validateDraft, h1, if_false, h2, h3, hs, h5, if_true]
            constructor
            · intro h
              exact absurd h (by simp)
            · rintro ⟨-, -, -, s', hs', hle, -⟩
              cases hs'
              omega
          · have hval : validateDraft p now d
                = (match endTimeErr p s d.scheduledEndTime with
                    | some msg => some msg
                    | none => whereErr d) := by
              simp [validateDraft, h1, h2, h3, hs, h5]
            rw [hval]
            cases hE : endTimeErr p s d.scheduledEndTime with
            | some msg =>
              have hnot : ¬ ∀ e, d.scheduledEndTime = some e → e ≠ "" →
                  ∃ en, p e = some en ∧ s < en := by
                rw [← endTimeErr_none_iff p s]
                simp [hE]
              constructor
              · intro h
                simp at h
              · rintro ⟨-, -, -, s', hs', -, hend, -⟩
                cases hs'
                exact absurd hend hnot
            | none =>
              have hEiff := (endTimeErr_none_iff p s d.scheduledEndTime).mp hE
              rw [show (match (none : Option String) with
                    | some msg => some msg
                    | none => whereErr d) = whereErr d from rfl]
              rw [whereErr_none_iff]
              constructor
              · rintro ⟨hl, hc⟩
                exact ⟨h1, h2, h3, s, rfl, by omega, hEiff, hl, hc⟩
              · rintro ⟨-, -, -, s', hs', -, -, hl, hc⟩
                cases hs'
                exact ⟨hl, hc⟩
      · have h3f : entityPresent d.entityType = false := by
          simpa using h3
        simp [validateDraft, h1, h2, h3f]

/-- C7: validateDraft checks, in source order — name non-blank after trim,
start time present, entity type present (truthy), start time parses, start at
least 60 seconds after now, a present (truthy) end time parses and is strictly
after start, EXTERNAL requires a non-blank location and otherwise a non-blank
channelId — returning the first failing rule's message, and none exactly when
every rule passes. -/
theorem validateDraft_spec (p : String → Option Int) (now : Int) (d : EventDraft) :
    (validateDraft p now d = none ↔
      (jsTrim d.name ≠ "" ∧ d.scheduledStartTime ≠ "" ∧
        entityPresent d.entityType = true ∧
        ∃ s, p d.scheduledStartTime = some s ∧ now + 60000 ≤ s ∧
          (∀ e, d.scheduledEndTime = some e → e ≠ "" →
            ∃ en, p e = some en ∧ s < en) ∧
          (isStr d.entityType "EXTERNAL" = true → optBlank d.location = false) ∧
          (isStr d.entityType "EXTERNAL" = false → optBlank d.channelId = false))) ∧
    (jsTrim d.name = "" → validateDraft p now d = some "Missing event name.") ∧
    (jsTrim d.name ≠ "" → d.scheduledStartTime = "" →
      validateDraft p now d = some "Missing start time.") ∧
    (jsTrim d.name ≠ "" → d.scheduledStartTime ≠ "" →
      entityPresent d.entityType = false →
      validateDraft p now d = some "Missing entity type.") ∧
    (jsTrim d.name ≠ "" → d.scheduledStartTime ≠ "" →
      entityPresent d.entityType = true → p d.scheduledStartTime = none →
      validateDraft p now d = some "Start time is not a valid ISO timestamp.") ∧
    (∀ s, jsTrim d.name ≠ "" → d.scheduledStartTime ≠ "" →
      entityPresent d.entityType = true → p d.scheduledStartTime = some s →
      s < now + 60000 →
      validateDraft p now d = some "Start time must be in the future.") ∧
    (∀ s e, jsTrim d.name ≠ "" → d.scheduledStartTime ≠ "" →
      entityPresent d.entityType = true → p d.scheduledStartTime = some s →
      now + 60000 ≤ s → d.scheduledEndTime = some e → e ≠ "" → p e = none →
      validateDraft p now d = some "End time is not a valid ISO timestamp.") ∧
    (∀ s e en, jsTrim d.name ≠ "" → d.scheduledStartTime ≠ "" →
      entityPresent d.entityType = true → p d.scheduledStartTime = some s →
      now + 60000 ≤ s → d.scheduledEndTime = some e → e ≠ "" →
      p e = some en → en ≤ s →
      validateDraft p now d = some "End time must be after start time.") ∧
    (∀ s, jsTrim d.name ≠ "" → d.scheduledStartTime ≠ "" →
      entityPresent d.entityType = true → p d.scheduledStartTime = some s →
      now + 60000 ≤ s →
      (∀ e, d.scheduledEndTime = some e → e ≠ "" →
        ∃ en, p e = some en ∧ s < en) →
      isStr d.entityType "EXTERNAL" = true → optBlank d.location = true →
      validateDraft p now d = some "External events require a location.") ∧
    (∀ s, jsTrim d.name ≠ "" → d.scheduledStartTime ≠ "" →
      entityPresent d.entityType = true → p d.scheduledStartTime = some s →
      now + 60000 ≤ s →
      (∀ e, d.scheduledEndTime = some e → e ≠ "" →
        ∃ en, p e = some en ∧ s < en) →
      isStr d.entityType "EXTERNAL" = false → optBlank d.channelId = true →
      validateDraft p now d = some "Voice/Stage events require a channelId.") := by
  refine ⟨validateDraft_none_iff p now d, ?_, ?_, ?_, ?_, ?_, ?_, ?_, ?_, ?_⟩
  · intro h1
    simp [validateDraft, h1]
  · intro h1 h2
    simp [validateDraft, h1, h2]
  · intro h1 h2 h3
    simp [validateDraft, h1, h2, h3]
  · intro h1 h2 h3 h4
    simp [validateDraft, h1, h2, h3, h4]
  · intro s h1 h2 h3 h4 h5
    simp [validateDraft, h1, h2, h3, h4, h5]
  · intro s e h1 h2 h3 h4 h5 h6 h7 h8
    have h5' : ¬ s < now + 60000 := by omega
    simp [validateDraft, h1, h2, h3, h4, h5', endTimeErr, h6, h7, h8]
  · intro s e en h1 h2 h3 h4 h5 h6 h7 h8 h9
    have h5' : ¬ s < now + 60000 := by omega
    simp [validateDraft, h1, h2, h3, h4, h5', endTimeErr, h6, h7, h8, h9]
  · intro s h1 h2 h3 h4 h5 hend h7 h8
    have h5' : ¬ s < now + 60000 := by omega
    have hE : endTimeErr p s d.scheduledEndTime = none :=
      (endTimeErr_none_iff p s d.scheduledEndTime).mpr hend
    simp [validateDraft, h1, h2, h3, h4, h5', hE, whereErr, h7, h8]
  · intro s h1 h2 h3 h4 h5 hend h7 h8
    have h5' : ¬ s < now + 60000 := by omega
    have hE : endTimeErr p s d.scheduledEndTime = none :=
      (endTimeErr_none_iff p s d.scheduledEndTime).mpr hend
    simp [validateDraft, h1, h2, h3, h4, h5', hE, whereErr, h7, h8]

/-- Luxon parse stub for the validation witnesses, consistent with
DateTime.fromISO at the instants used: two ISO timestamps one hour apart on
1970-01-02, everything else invalid. -/
def isoStub : String → Option Int := fun s =>
  if s = "1970-01-02T00:00:00.000Z" then some 86400000
  else if s = "1970-01-02T01:00:00.000Z" then some 90000000
  else none

/-- Complete VOICE draft used by the C7 witness. -/
def draftVoice : EventDraft :=
  { name := "Hangout", description := none,
    scheduledStartTime := "1970-01-02T00:00:00.000Z",
    scheduledEndTime := some "1970-01-02T01:00:00.000Z",
    entityType := some (JVal.str "VOICE"), location := none,
    channelId := some "123" }

/-- Draft with a blank name used by the C7 witness. -/
def draftBlankName : EventDraft :=
  { name := "  ", description := none,
    scheduledStartTime := "1970-01-02T00:00:00.000Z",
    scheduledEndTime := none, entityType := some (JVal.str "VOICE"),
    location := none, channelId := some "123" }

/-- Witness for C7: a fully specified VOICE draft passes every rule at instant
0, and a blank name yields the first rule's message. -/
theorem validateDraft_spec_witness :
    validateDraft isoStub 0 draftVoice = none ∧
    validateDraft isoStub 0 draftBlankName = some "Missing event name." :=
  ⟨(validateDraft_spec isoStub 0 draftVoice).1.mpr
      ⟨by decide, by decide, by decide,
        86400000, rfl, by decide,
        by
          intro e he hne
          cases he
          exact ⟨90000000, rfl, by decide⟩,
        by
          intro h
          exact absurd h (by decide),
        fun _ => by decide⟩,
   (validateDraft_spec isoStub 0 draftBlankName).2.1 (by decide)⟩

/-- Accepted VOICE draft whose channelId is not in the eligible list, for C8. -/
def draftBogusChan : EventDraft :=
  { name := "Hangout", description := none,
    scheduledStartTime := "1970-01-02T00:00:00.000Z",
    scheduledEndTime := none, entityType := some (JVal.str "VOICE"),
    location := none, channelId := some "999" }

/-- C8 counterexample: validateDraft accepts a VOICE draft whose channelId
"999" is not among the schedulable channels the platform reports (a single
voice channel with id "123"), so acceptance does not imply membership in the
eligible list. -/
theorem validateDraft_channel_counterexample :
    validateDraft isoStub 0 draftBogusChan = none ∧
    draftBogusChan.entityType = some (JVal.str "VOICE") ∧
    draftBogusChan.channelId = some "999" ∧
    listSchedulableChannels
        [{ id := "123", name := "General", type := ChannelType.GuildVoice }]
      = [{ id := "123", name := "General", kind := ChannelKind.VOICE }] ∧
    ¬ "999" ∈ (listSchedulableChannels
        [{ id := "123", name := "General", type := ChannelType.GuildVoice }]).map
          VoiceChannelInfo.id := by
  refine ⟨by decide, rfl, rfl, rfl, by decide⟩

/-- C8 amended: for a draft whose entityType is not EXTERNAL (VOICE and STAGE
included), acceptance by validateDraft guarantees only that channelId is
present and non-blank; membership in the schedulable-channel list is not
checked by validation (the eligible list reaches the model only through the
prompt). -/
theorem validateDraft_voice_channelId (p : String → Option Int) (now : Int)
    (d : EventDraft) (hacc : validateDraft p now d = none)
    (hext : isStr d.entityType "EXTERNAL" = false) :
    ∃ c, d.channelId = some c ∧ jsTrim c ≠ "" := by
  have h := (validateDraft_none_iff p now d).mp hacc
  rcases h with ⟨-, -, -, s, -, -, -, -, hc⟩
  have hb := hc hext
  cases hch : d.channelId with
  | none =>
    rw [hch] at hb
    simp [optBlank] at hb
  | some c =>
    refine ⟨c, rfl, ?_⟩
    rw [hch] at hb
    simpa [optBlank] using hb

/-- Witness for C8 (amended): the accepted VOICE draft with channelId "999"
indeed carries a non-blank channelId. -/
theorem validateDraft_voice_channelId_witness :
    ∃ c, draftBogusChan.channelId = some c ∧ jsTrim c ≠ "" :=
  validateDraft_voice_channelId isoStub 0 draftBogusChan (by decide) (by decide)

/-- Luxon parse stub near the platform's maximum representable instant
(8.64e15 ms): the draft's start time is 30 minutes before the maximum. -/
def isoBig : String → Option Int := fun s =>
  if s = "+275760-09-12T23:30:00.000Z" then some 8639999998200000 else none

/-- Luxon toISO stub near the maximum representable instant: DateTime.toISO
yields null for instants beyond 8.64e15 ms from the epoch. -/
def toIsoBig : Int → Option String := fun n =>
  if 8640000000000000 < n then none else some "+275760-09-12T23:30:00.000Z"

/-- EXTERNAL draft without end time whose start is 30 minutes before the
maximum representable instant, for the C9 counterexample. -/
def draftMaxRange : EventDraft :=
  { name := "Far future gathering", description := none,
    scheduledStartTime := "+275760-09-12T23:30:00.000Z",
    scheduledEndTime := none, entityType := some (JVal.str "EXTERNAL"),
    location := some "Town Hall", channelId := none }

/-- C9 counterexample: with a start so late that start + 60 minutes has no ISO
rendering, applyDefaultEndTimeIfMissing leaves the end time absent (the
source's !endIso guard) and validateDraft still returns none, so a draft can
pass validation after defaulting with no end time at all. -/
theorem roundtrip_counterexample :
    (applyDefaultEndTimeIfMissing isoBig toIsoBig 60 draftMaxRange).scheduledEndTime
      = none ∧
    validateDraft isoBig 0
      (applyDefaultEndTimeIfMissing isoBig toIsoBig 60 draftMaxRange) = none := by
  constructor
  · decide
  · decide

/-- C9 amended: if a draft passes validateDraft after applyDefaultEndTimeIfMissing
and either it already had a truthy end time or the default end-time rendering
succeeded (toISO produced a non-empty string for start + duration), then the
resulting draft has a parsing start time and an end time that parses strictly
after it.  (The counterexample shows the end time may be absent when the draft
had none and toISO fails.) -/
theorem applyDefaultEndTime_roundtrip (p : String → Option Int)
    (toIso : Int → Option String) (dur now : Int) (d : EventDraft)
    (hacc : validateDraft p now (applyDefaultEndTimeIfMissing p toIso dur d) = none)
    (hend : strTruthy d.scheduledEndTime = true ∨
      (∃ m s, p d.scheduledStartTime = some m ∧
        toIso (m + dur * 60000) = some s ∧ s ≠ "")) :
    ∃ e sm en,
      (applyDefaultEndTimeIfMissing p toIso dur d).scheduledEndTime = some e ∧
      e ≠ "" ∧
      p (applyDefaultEndTimeIfMissing p toIso dur d).scheduledStartTime = some sm ∧
      p e = some en ∧ sm < en := by
  rcases (validateDraft_none_iff p now _).mp hacc with
    ⟨-, -, -, s, hps, -, hendAll, -, -⟩
  by_cases hT : strTruthy d.scheduledEndTime = true
  · have hr : applyDefaultEndTimeIfMissing p toIso dur d = d := by
      simp [applyDefaultEndTimeIfMissing, hT]
    cases hde : d.scheduledEndTime with
    | none => rw [hde] at hT; simp [strTruthy] at hT
    | some e =>
      have hne : e ≠ "" := by
        rw [hde] at hT
        simpa [strTruthy] using hT
      rcases hendAll e (by rw [hr, hde]) hne with ⟨en, hpe, hlt⟩
      exact ⟨e, s, en, by rw [hr, hde], hne, hps, hpe, hlt⟩
  · rcases hend with hend | ⟨m, s', hm, hts, hs'⟩
    · exact absurd hend hT
    · have hr : applyDefaultEndTimeIfMissing p toIso dur d
          = { d with scheduledEndTime := some s' } := by
        simp [applyDefaultEndTimeIfMissing, hT, hm, hts, hs']
      rcases hendAll s' (by rw [hr]) hs' with ⟨en, hpe, hlt⟩
      exact ⟨s', s, en, by rw [hr], hs', hps, hpe, hlt⟩

/-- Luxon parse stub for the C9 witness: 03:00 and 04:00 on 1970-01-01. -/
def isoW : String → Option Int := fun s =>
  if s = "1970-01-01T03:00:00.000Z" then some 10800000
  else if s = "1970-01-01T04:00:00.000Z" then some 14400000
  else none

/-- Luxon toISO stub for the C9 witness, the inverse of isoW at 04:00. -/
def toIsoW : Int → Option String := fun n =>
  if n = 14400000 then some "1970-01-01T04:00:00.000Z" else none

/-- VOICE draft without an end time for the C9 witness. -/
def draftNoEnd : EventDraft :=
  { name := "Standup", description := none,
    scheduledStartTime := "1970-01-01T03:00:00.000Z",
    scheduledEndTime := none, entityType := some (JVal.str "VOICE"),
    location := none, channelId := some "123" }

/-- Witness for C9 (amended): defaulting adds 04:00 as end time to the 03:00
draft (60 minute default) and the validated result has end strictly after
start. -/
theorem applyDefaultEndTime_roundtrip_witness :
    ∃ e sm en,
      (applyDefaultEndTimeIfMissing isoW toIsoW 60 draftNoEnd).scheduledEndTime
        = some e ∧
      e ≠ "" ∧
      isoW (applyDefaultEndTimeIfMissing isoW toIsoW 60 draftNoEnd).scheduledStartTime
        = some sm ∧
      isoW e = some en ∧ sm < en :=
  applyDefaultEndTime_roundtrip isoW toIsoW 60 0 draftNoEnd (by decide)
    (Or.inr ⟨10800000, "1970-01-01T04:00:00.000Z", by decide, by decide, by decide⟩)
